import Mathlib

/-!
Shallow embedding of the cross-platform bridge shims:

- samples/cross_platform/objc_bridge.c : typed trampolines over objc_msgSend,
  modelled through an explicit ARM64-style two-register-file call record
  (integer/pointer file and floating-point file) and an oracle for the
  untyped dispatch primitive;
- samples/cross_platform/collection_bridge.c : the selector cache
  (ensure_selectors) and a representative batch helper, plus the JNI
  local-reference-frame helpers, modelled as event traces;
- src/crystal/asyncify_helper.c : the fiber switch point, modelled as the
  trace of asyncify runtime calls it performs;
- src/llvm/ext/llvm_ext.cc : LLVMExtSetWasmExceptionHandling, modelled as a
  pure update of the relevant target-machine state.

C doubles are carried as rationals: the bridge layer applies no arithmetic
to them, so any carrier with decidable equality models pass-through
faithfully. Pointers, SEL tokens and C integers are carried as Int.
The external host runtime (objc_msgSend, objc_getClass, sel_registerName)
is an oracle record; per the spec, sel_registerName is the host interned
resolution primitive and is deterministic per name.
-/

-- ============================================================
-- ObjC bridge: data model (objc_bridge.c)
-- ============================================================

-- CGPoint: two doubles (HFA of 2 on ARM64).
structure CGPoint where
  x : Rat
  y : Rat

-- CGSize: two doubles (HFA of 2 on ARM64).
structure CGSize where
  width : Rat
  height : Rat

-- CGRect: origin plus size, four doubles total (HFA of 4 on ARM64).
structure CGRect where
  origin : CGPoint
  size : CGSize

-- A typed C argument as it appears at a trampoline call site.
inductive CVal where
  | ptr (p : Int)
  | sel (s : Int)
  | int (i : Int)
  | long (i : Int)
  | ulong (u : Nat)
  | cstr (s : String)
  | dbl (d : Rat)
  | rect (r : CGRect)
  | point (p : CGPoint)
  | size (s : CGSize)

-- One invocation of the untyped dispatch primitive: receiver and selector
-- (always in the integer file as x0 and x1), then the integer/pointer
-- register file and the floating-point register file, each in
-- left-to-right slot order.
structure MsgSendCall where
  receiver : Int
  selector : Int
  gpArgs : List CVal
  fpArgs : List Rat

-- The return-register state the dispatched target leaves behind:
-- x0 for integer/pointer returns, d0-d3 for floating-point and HFA returns.
structure RetRegs where
  x0 : Int
  d0 : Rat
  d1 : Rat
  d2 : Rat
  d3 : Rat

-- The external host runtime. msgSend is the untyped dispatch primitive;
-- getClass and selRegister are the name-resolution primitives, which the
-- spec describes as interned and hence deterministic per name.
structure Host where
  msgSend : MsgSendCall → RetRegs
  getClass : String → Int
  selRegister : String → Int

-- Observable host interactions performed by a bridge function.
inductive ObjCEvent where
  | msgSend (c : MsgSendCall)
  | getClass (name : String)
  | selRegisterName (name : String)

-- AAPCS64 marshaling of a typed argument list into the two register
-- files: double-class scalars go to the floating-point file, an HFA of n
-- fields occupies n consecutive floating-point slots as a block, and all
-- pointer/integer-class values go to the integer file; the two files
-- advance independently, each in left-to-right order.
def marshal : List CVal → List CVal × List Rat
  | [] => ([], [])
  | v :: rest =>
    let m := marshal rest
    match v with
    | CVal.dbl d => (m.1, d :: m.2)
    | CVal.rect r =>
        (m.1, r.origin.x :: r.origin.y :: r.size.width :: r.size.height :: m.2)
    | CVal.point p => (m.1, p.x :: p.y :: m.2)
    | CVal.size s => (m.1, s.width :: s.height :: m.2)
    | g => (g :: m.1, m.2)

-- Build the dispatch-primitive invocation for one typed call site.
def mkSend (self selv : Int) (args : List CVal) : MsgSendCall :=
  let m := marshal args
  ⟨self, selv, m.1, m.2⟩

-- Reading the return registers back at the declared return type.
def decodeRect (r : RetRegs) : CGRect := ⟨⟨r.d0, r.d1⟩, ⟨r.d2, r.d3⟩⟩

def decodePoint (r : RetRegs) : CGPoint := ⟨r.d0, r.d1⟩

def decodeSize (r : RetRegs) : CGSize := ⟨r.d0, r.d1⟩

-- The selector names a trace resolves against the host, in order.
def lookupNames (t : List ObjCEvent) : List String :=
  t.filterMap fun e =>
    match e with
    | ObjCEvent.selRegisterName s => some s
    | _ => none

-- ============================================================
-- ObjC bridge: typed trampolines (objc_bridge.c, sections 1-3)
-- Each returns the trace of host interactions it performs, paired with
-- its typed result (void trampolines return just the trace).
-- ============================================================

-- (id, SEL) -> id
def objc_send (h : Host) (self selv : Int) : List ObjCEvent × Int :=
  let c := mkSend self selv []
  ([ObjCEvent.msgSend c], (h.msgSend c).x0)

-- (id, SEL, id) -> id
def objc_send_id (h : Host) (self selv arg1 : Int) : List ObjCEvent × Int :=
  let c := mkSend self selv [CVal.ptr arg1]
  ([ObjCEvent.msgSend c], (h.msgSend c).x0)

-- (id, SEL, id, id) -> id
def objc_send_id_id (h : Host) (self selv arg1 arg2 : Int) : List ObjCEvent × Int :=
  let c := mkSend self selv [CVal.ptr arg1, CVal.ptr arg2]
  ([ObjCEvent.msgSend c], (h.msgSend c).x0)

-- (id, SEL, id, id, id) -> id
def objc_send_id_id_id (h : Host) (self selv arg1 arg2 arg3 : Int) :
    List ObjCEvent × Int :=
  let c := mkSend self selv [CVal.ptr arg1, CVal.ptr arg2, CVal.ptr arg3]
  ([ObjCEvent.msgSend c], (h.msgSend c).x0)

-- (id, SEL, int) -> void
def objc_send_bool (_h : Host) (self selv arg1 : Int) : List ObjCEvent :=
  [ObjCEvent.msgSend (mkSend self selv [CVal.int arg1])]

-- (id, SEL, long) -> id
def objc_send_long (h : Host) (self selv arg1 : Int) : List ObjCEvent × Int :=
  let c := mkSend self selv [CVal.long arg1]
  ([ObjCEvent.msgSend c], (h.msgSend c).x0)

-- (id, SEL, unsigned long) -> id
def objc_send_ulong (h : Host) (self selv : Int) (arg1 : Nat) : List ObjCEvent × Int :=
  let c := mkSend self selv [CVal.ulong arg1]
  ([ObjCEvent.msgSend c], (h.msgSend c).x0)

-- (id, SEL, int) -> id
def objc_send_int (h : Host) (self selv arg1 : Int) : List ObjCEvent × Int :=
  let c := mkSend self selv [CVal.int arg1]
  ([ObjCEvent.msgSend c], (h.msgSend c).x0)

-- (id, SEL, id) -> void
def objc_send_void_id (_h : Host) (self selv arg1 : Int) : List ObjCEvent :=
  [ObjCEvent.msgSend (mkSend self selv [CVal.ptr arg1])]

-- (id, SEL, SEL) -> void
def objc_send_sel (_h : Host) (self selv arg1 : Int) : List ObjCEvent :=
  [ObjCEvent.msgSend (mkSend self selv [CVal.sel arg1])]

-- (id, SEL, id, SEL) -> void
def objc_send_id_sel (_h : Host) (self selv arg1 arg2 : Int) : List ObjCEvent :=
  [ObjCEvent.msgSend (mkSend self selv [CVal.ptr arg1, CVal.sel arg2])]

-- (id, SEL, id, SEL, unsigned long) -> void
def objc_send_id_sel_ulong (_h : Host) (self selv arg1 arg2 : Int) (arg3 : Nat) :
    List ObjCEvent :=
  [ObjCEvent.msgSend (mkSend self selv [CVal.ptr arg1, CVal.sel arg2, CVal.ulong arg3])]

-- (id, SEL, id, long) -> id
def objc_send_id_long (h : Host) (self selv arg1 arg2 : Int) : List ObjCEvent × Int :=
  let c := mkSend self selv [CVal.ptr arg1, CVal.long arg2]
  ([ObjCEvent.msgSend c], (h.msgSend c).x0)

-- (id, SEL, double) -> void
def objc_send_1d (_h : Host) (self selv : Int) (arg1 : Rat) : List ObjCEvent :=
  [ObjCEvent.msgSend (mkSend self selv [CVal.dbl arg1])]

-- (id, SEL, double) -> id
def objc_send_1d_ret_id (h : Host) (self selv : Int) (d0 : Rat) : List ObjCEvent × Int :=
  let c := mkSend self selv [CVal.dbl d0]
  ([ObjCEvent.msgSend c], (h.msgSend c).x0)

-- (id, SEL, double, double) -> id
def objc_send_2d_ret_id (h : Host) (self selv : Int) (d0 d1 : Rat) :
    List ObjCEvent × Int :=
  let c := mkSend self selv [CVal.dbl d0, CVal.dbl d1]
  ([ObjCEvent.msgSend c], (h.msgSend c).x0)

-- (id, SEL, double, double, double) -> id
def objc_send_3d_ret_id (h : Host) (self selv : Int) (d0 d1 d2 : Rat) :
    List ObjCEvent × Int :=
  let c := mkSend self selv [CVal.dbl d0, CVal.dbl d1, CVal.dbl d2]
  ([ObjCEvent.msgSend c], (h.msgSend c).x0)

-- (id, SEL, double, double, double, double) -> id
def objc_send_4d_ret_id (h : Host) (self selv : Int) (d0 d1 d2 d3 : Rat) :
    List ObjCEvent × Int :=
  let c := mkSend self selv [CVal.dbl d0, CVal.dbl d1, CVal.dbl d2, CVal.dbl d3]
  ([ObjCEvent.msgSend c], (h.msgSend c).x0)

-- (id, SEL, double, double) -> void
def objc_send_2d (_h : Host) (self selv : Int) (d0 d1 : Rat) : List ObjCEvent :=
  [ObjCEvent.msgSend (mkSend self selv [CVal.dbl d0, CVal.dbl d1])]

-- (id, SEL, id, double) -> id : the id goes to the integer file, the
-- double to the floating-point file; the two files are independent.
def objc_send_id_1d_ret_id (h : Host) (self selv arg1 : Int) (d0 : Rat) :
    List ObjCEvent × Int :=
  let c := mkSend self selv [CVal.ptr arg1, CVal.dbl d0]
  ([ObjCEvent.msgSend c], (h.msgSend c).x0)

-- (id, SEL, CGRect) -> id
def objc_send_rect (h : Host) (self selv : Int) (rect : CGRect) :
    List ObjCEvent × Int :=
  let c := mkSend self selv [CVal.rect rect]
  ([ObjCEvent.msgSend c], (h.msgSend c).x0)

-- (id, SEL, CGRect) -> void
def objc_send_rect_void (_h : Host) (self selv : Int) (rect : CGRect) :
    List ObjCEvent :=
  [ObjCEvent.msgSend (mkSend self selv [CVal.rect rect])]

-- (id, SEL, CGRect, unsigned long, unsigned long, int) -> id
def objc_send_rect_ulong_ulong_bool (h : Host) (self selv : Int) (rect : CGRect)
    (a b : Nat) (c : Int) : List ObjCEvent × Int :=
  let cc := mkSend self selv [CVal.rect rect, CVal.ulong a, CVal.ulong b, CVal.int c]
  ([ObjCEvent.msgSend cc], (h.msgSend cc).x0)

-- (id, SEL, CGPoint) -> id
def objc_send_point (h : Host) (self selv : Int) (point : CGPoint) :
    List ObjCEvent × Int :=
  let c := mkSend self selv [CVal.point point]
  ([ObjCEvent.msgSend c], (h.msgSend c).x0)

-- (id, SEL, CGPoint) -> void
def objc_send_point_void (_h : Host) (self selv : Int) (point : CGPoint) :
    List ObjCEvent :=
  [ObjCEvent.msgSend (mkSend self selv [CVal.point point])]

-- (id, SEL, CGSize) -> void
def objc_send_size_void (_h : Host) (self selv : Int) (size : CGSize) :
    List ObjCEvent :=
  [ObjCEvent.msgSend (mkSend self selv [CVal.size size])]

-- (id, SEL) -> CGRect (HFA return read back from d0-d3)
def objc_send_ret_rect (h : Host) (self selv : Int) : List ObjCEvent × CGRect :=
  let c := mkSend self selv []
  ([ObjCEvent.msgSend c], decodeRect (h.msgSend c))

-- (id, SEL) -> CGPoint (HFA return read back from d0-d1)
def objc_send_ret_point (h : Host) (self selv : Int) : List ObjCEvent × CGPoint :=
  let c := mkSend self selv []
  ([ObjCEvent.msgSend c], decodePoint (h.msgSend c))

-- (id, SEL) -> CGSize (HFA return read back from d0-d1)
def objc_send_ret_size (h : Host) (self selv : Int) : List ObjCEvent × CGSize :=
  let c := mkSend self selv []
  ([ObjCEvent.msgSend c], decodeSize (h.msgSend c))

-- (id, SEL) -> double
def objc_send_ret_double (h : Host) (self selv : Int) : List ObjCEvent × Rat :=
  let c := mkSend self selv []
  ([ObjCEvent.msgSend c], (h.msgSend c).d0)

-- (id, SEL) -> long
def objc_send_ret_long (h : Host) (self selv : Int) : List ObjCEvent × Int :=
  let c := mkSend self selv []
  ([ObjCEvent.msgSend c], (h.msgSend c).x0)

-- (id, SEL) -> int (BOOL)
def objc_send_ret_bool (h : Host) (self selv : Int) : List ObjCEvent × Int :=
  let c := mkSend self selv []
  ([ObjCEvent.msgSend c], (h.msgSend c).x0)

-- ============================================================
-- ObjC bridge: backward compatibility aliases (objc_bridge.c, end)
-- ============================================================

-- Old name objc_send_double, delegates to objc_send_1d.
def objc_send_double (h : Host) (self selv : Int) (arg1 : Rat) : List ObjCEvent :=
  objc_send_1d h self selv arg1

-- Old name objc_send_double_ret_id, delegates to objc_send_1d_ret_id.
def objc_send_double_ret_id (h : Host) (self selv : Int) (arg1 : Rat) :
    List ObjCEvent × Int :=
  objc_send_1d_ret_id h self selv arg1

-- ============================================================
-- ObjC bridge: convenience constructors (objc_bridge.c, section 4)
-- Each binds a fixed class name and a fixed selector string to one
-- typed call shape; the class lookup and selector resolution appear in
-- the trace ahead of the single dispatch call.
-- ============================================================

def nscolor_rgba (h : Host) (r g b a : Rat) : List ObjCEvent × Int :=
  let cls := h.getClass "NSColor"
  let sv := h.selRegister "colorWithRed:green:blue:alpha:"
  let c := mkSend cls sv [CVal.dbl r, CVal.dbl g, CVal.dbl b, CVal.dbl a]
  ([ObjCEvent.getClass "NSColor",
    ObjCEvent.selRegisterName "colorWithRed:green:blue:alpha:",
    ObjCEvent.msgSend c], (h.msgSend c).x0)

structure SelCache where
  sel_alloc : Int
  sel_init : Int
  sel_autorelease : Int
  sel_retain : Int
  sel_release : Int
  sel_count : Int
  sel_objectAtIndex : Int
  sel_addObject : Int
  sel_removeObjectAtIndex : Int
  sel_insertObjectAtIndex : Int
  sel_replaceObjectAtIndex : Int
  sel_removeAllObjects : Int
  sel_setObjectForKey : Int
  sel_objectForKey : Int
  sel_allKeys : Int
  sel_stringWithUTF8String : Int
  sel_UTF8String : Int
  sel_length : Int
  sel_lengthOfBytesUsingEnc : Int
  sel_initWithCapacity : Int
  sel_arrayWithObjectsCount : Int

-- The 21 selector name strings, in the order ensure_selectors resolves them.
def cachedSelectorNames : List String :=
  ["alloc", "init", "autorelease", "retain", "release", "count",
   "objectAtIndex:", "addObject:", "removeObjectAtIndex:",
   "insertObject:atIndex:", "replaceObject:atIndex:withObject:",
   "removeAllObjects", "setObject:forKey:", "objectForKey:", "allKeys",
   "stringWithUTF8String:", "UTF8String", "length",
   "lengthOfBytesUsingEncoding:", "initWithCapacity:",
   "arrayWithObjects:count:"]

-- The fully populated cache, every field resolved against the host.
def fillCache (h : Host) : SelCache :=
  { sel_alloc := h.selRegister "alloc"
    sel_init := h.selRegister "init"
    sel_autorelease := h.selRegister "autorelease"
    sel_retain := h.selRegister "retain"
    sel_release := h.selRegister "release"
    sel_count := h.selRegister "count"
    sel_objectAtIndex := h.selRegister "objectAtIndex:"
    sel_addObject := h.selRegister "addObject:"
    sel_removeObjectAtIndex := h.selRegister "removeObjectAtIndex:"
    sel_insertObjectAtIndex := h.selRegister "insertObject:atIndex:"
    sel_replaceObjectAtIndex := h.selRegister "replaceObject:atIndex:withObject:"
    sel_removeAllObjects := h.selRegister "removeAllObjects"
    sel_setObjectForKey := h.selRegister "setObject:forKey:"
    sel_objectForKey := h.selRegister "objectForKey:"
    sel_allKeys := h.selRegister "allKeys"
    sel_stringWithUTF8String := h.selRegister "stringWithUTF8String:"
    sel_UTF8String := h.selRegister "UTF8String"
    sel_length := h.selRegister "length"
    sel_lengthOfBytesUsingEnc := h.selRegister "lengthOfBytesUsingEncoding:"
    sel_initWithCapacity := h.selRegister "initWithCapacity:"
    sel_arrayWithObjectsCount := h.selRegister "arrayWithObjects:count:" }

-- ensure_selectors: guarded by sel_alloc; if already set it performs no
-- host lookup, otherwise it resolves all 21 names against the host.
-- Returns the new cache and the trace of host lookups performed.
def ensure_selectors (h : Host) (c : SelCache) : SelCache × List ObjCEvent :=
  if c.sel_alloc ≠ 0 then (c, [])
  else (fillCache h, cachedSelectorNames.map ObjCEvent.selRegisterName)

-- Cache component of ensure_selectors (the value of the 21 statics after
-- the call).
def ensure_selectors_cache (h : Host) (c : SelCache) : SelCache :=
  (ensure_selectors h c).1

-- The all-NULL initial state of the 21 statics.
def emptyCache : SelCache :=
  ⟨0, 0, 0, 0, 0, 0, 0, 0, 0, 0, 0, 0, 0, 0, 0, 0, 0, 0, 0, 0, 0⟩

-- nsmutablearray_create_from: ensure_selectors, then
-- arrayWithObjects:count: on NSMutableArray, then an uncached
-- sel_registerName of mutableCopy, then mutableCopy and autorelease.
-- objects is the C pointer to the id buffer, passed through unchanged.
def nsmutablearray_create_from (h : Host) (st : SelCache) (objects : Int)
    (count : Nat) : SelCache × List ObjCEvent × Int :=
  let es := ensure_selectors h st
  let st1 := es.1
  let cls := h.getClass "NSMutableArray"
  let c1 : MsgSendCall :=
    ⟨cls, st1.sel_arrayWithObjectsCount, [CVal.ptr objects, CVal.ulong count], []⟩
  let immutable := (h.msgSend c1).x0
  let selMC := h.selRegister "mutableCopy"
  let c2 : MsgSendCall := ⟨immutable, selMC, [], []⟩
  let marr := (h.msgSend c2).x0
  let c3 : MsgSendCall := ⟨marr, st1.sel_autorelease, [], []⟩
  (st1,
   es.2 ++ [ObjCEvent.getClass "NSMutableArray", ObjCEvent.msgSend c1,
            ObjCEvent.selRegisterName "mutableCopy", ObjCEvent.msgSend c2,
            ObjCEvent.msgSend c3],
   (h.msgSend c3).x0)

-- ============================================================
-- Concrete hosts and caches used by closed witnesses
-- ============================================================

-- Host whose dispatched target returns the 4-field HFA (1, 2, 3, 4).
def rectHost : Host :=
  ⟨fun _ => ⟨0, 1, 2, 3, 4⟩, fun _ => 0, fun _ => 0⟩

-- Host whose dispatched target returns the 2-field HFA (10.5, -3.25).
def pointHost : Host :=
  ⟨fun _ => ⟨0, 10.5, -3.25, 0, 0⟩, fun _ => 0, fun _ => 0⟩

-- Host resolving every name and class to the non-null token 1.
def hostOne : Host :=
  ⟨fun _ => ⟨0, 0, 0, 0, 0⟩, fun _ => 1, fun _ => 1⟩

-- A cache state with every selector variable already set (non-null).
def fullCacheOne : SelCache :=
  ⟨1, 1, 1, 1, 1, 1, 1, 1, 1, 1, 1, 1, 1, 1, 1, 1, 1, 1, 1, 1, 1⟩

-- ============================================================
-- Asyncify helper (src/crystal/asyncify_helper.c)
-- ============================================================

-- The asyncify runtime entry points the helper can call.
inductive AsyncifyCall where
  | startUnwind (data : Int)
  | stopUnwind
  | startRewind (data : Int)
  | stopRewind
  | getState

-- crystal_asyncify_switch: reads the host state; on 2 (rewinding) stops
-- the rewind and returns, otherwise starts an unwind with the given
-- data pointer. The result is the trace of runtime calls performed.
def crystal_asyncify_switch (state : Int) (unwind_data : Int) : List AsyncifyCall :=
  AsyncifyCall.getState ::
    (if state = 2 then [AsyncifyCall.stopRewind]
     else [AsyncifyCall.startUnwind unwind_data])

-- ============================================================
-- LLVM extension (src/llvm/ext/llvm_ext.cc)
-- ============================================================

-- The LLVM ExceptionHandling enumeration.
inductive ExcKind where
  | noExceptions
  | dwarfCFI
  | sjlj
  | armEHABI
  | winEH
  | wasm
  | aix
  | zos

-- The target-machine state LLVMExtSetWasmExceptionHandling can touch,
-- plus an abstract component for everything else on the target machine.
structure TargetMachineState where
  optionsExceptionModel : ExcKind
  mcAsmInfoExceptionsType : ExcKind
  wasmEnableEH : Bool
  wasmUseLegacyEH : Bool
  otherState : Int

-- The LLVM_VERSION_GE(major, minor) macro from llvm_ext.cc.
def llvmVersionGE (vmajor vminor reqMajor reqMinor : Nat) : Bool :=
  vmajor > reqMajor || (vmajor == reqMajor && vminor ≥ reqMinor)

-- LLVMExtSetWasmExceptionHandling: below LLVM 22 it sets the exception
-- model on TargetOptions and MCAsmInfo; on every version it sets the two
-- WebAssembly backend flags WasmEnableEH and WasmUseLegacyEH to true.
def LLVMExtSetWasmExceptionHandling (vmajor vminor : Nat)
    (tm : TargetMachineState) : TargetMachineState :=
  let tm1 :=
    if !(llvmVersionGE vmajor vminor 22 0) then
      { tm with optionsExceptionModel := ExcKind.wasm
                mcAsmInfoExceptionsType := ExcKind.wasm }
    else tm
  { tm1 with wasmEnableEH := true, wasmUseLegacyEH := true }

-- ============================================================
-- JNI collection bridge (collection_bridge.c, section 2)
-- Each helper is modelled as the trace of JNI calls it performs; the
-- fallible JNI results it branches on (PushLocalFrame, FindClass,
-- NewObject) are supplied as an outcome record. Reference values use
-- Int with 0 for NULL.
-- ============================================================

-- The JNI environment calls these helpers can perform.
inductive JNIEvent where
  | pushLocalFrame (capacity : Int) (ok : Bool)
  | popLocalFrame
  | findClass (name : String)
  | getMethodID (name : String) (sig : String)
  | newObject (res : Int)
  | callBooleanMethod
  | callVoidMethod
  | callObjectMethod
  | newStringUTF (s : String)

-- Results of the fallible JNI calls a helper branches on.
structure JNIOutcomes where
  pushRes : Int
  clsRef : Int
  objRef : Int

-- jni_arraylist_create: push a frame sized count + 8; on failed push
-- return NULL with no frame pushed. Then FindClass, two GetMethodID
-- lookups, NewObject, one CallBooleanMethod per element, and exactly
-- one PopLocalFrame on every remaining path.
def jni_arraylist_create (o : JNIOutcomes) (count : Int) : List JNIEvent × Int :=
  if o.pushRes < 0 then ([JNIEvent.pushLocalFrame (count + 8) false], 0)
  else
    let t := [JNIEvent.pushLocalFrame (count + 8) true,
              JNIEvent.findClass "java/util/ArrayList"]
    if o.clsRef = 0 then (t ++ [JNIEvent.popLocalFrame], 0)
    else
      let t2 := t ++ [JNIEvent.getMethodID "<init>" "(I)V",
                      JNIEvent.getMethodID "add" "(Ljava/lang/Object;)Z",
                      JNIEvent.newObject o.objRef]
      if o.objRef = 0 then (t2 ++ [JNIEvent.popLocalFrame], 0)
      else
        (t2 ++ List.replicate count.toNat JNIEvent.callBooleanMethod ++
           [JNIEvent.popLocalFrame],
         o.objRef)

-- jni_viewgroup_add_views_batch: push a frame sized count + 4; on failed
-- push return with no frame pushed. Then FindClass (popping on NULL),
-- GetMethodID, one CallVoidMethod per child, and one PopLocalFrame.
def jni_viewgroup_add_views_batch (o : JNIOutcomes) (count : Int) : List JNIEvent :=
  if o.pushRes < 0 then [JNIEvent.pushLocalFrame (count + 4) false]
  else
    let t := [JNIEvent.pushLocalFrame (count + 4) true,
              JNIEvent.findClass "android/view/ViewGroup"]
    if o.clsRef = 0 then t ++ [JNIEvent.popLocalFrame]
    else
      t ++ [JNIEvent.getMethodID "addView" "(Landroid/view/View;)V"] ++
        List.replicate count.toNat JNIEvent.callVoidMethod ++
        [JNIEvent.popLocalFrame]

-- Per-element events of the jni_hashmap_create_string_string loop:
-- two NewStringUTF calls and one CallObjectMethod per pair, for
-- indices 0 through n - 1 in order.
def hashmapPutEvents (keys vals : List String) : Nat → List JNIEvent
  | 0 => []
  | Nat.succ n =>
      hashmapPutEvents keys vals n ++
        [JNIEvent.newStringUTF (keys.getD n ""),
         JNIEvent.newStringUTF (vals.getD n ""),
         JNIEvent.callObjectMethod]

-- jni_hashmap_create_string_string: push a frame sized count * 2 + 8;
-- on failed push return NULL. FindClass is not NULL-checked in the
-- source, so there is no early return for it; then two GetMethodID
-- lookups, NewObject (popping on NULL), the put loop, and PopLocalFrame.
def jni_hashmap_create_string_string (o : JNIOutcomes) (keys vals : List String)
    (count : Int) : List JNIEvent × Int :=
  if o.pushRes < 0 then ([JNIEvent.pushLocalFrame (count * 2 + 8) false], 0)
  else
    let t := [JNIEvent.pushLocalFrame (count * 2 + 8) true,
              JNIEvent.findClass "java/util/HashMap",
              JNIEvent.getMethodID "<init>" "(I)V",
              JNIEvent.getMethodID "put"
                "(Ljava/lang/Object;Ljava/lang/Object;)Ljava/lang/Object;",
              JNIEvent.newObject o.objRef]
    if o.objRef = 0 then (t ++ [JNIEvent.popLocalFrame], 0)
    else
      (t ++ hashmapPutEvents keys vals count.toNat ++ [JNIEvent.popLocalFrame],
       o.objRef)

-- A successful PushLocalFrame event (the only kind that deepens the
-- local-reference frame stack).
def isPushOk : JNIEvent → Bool
  | JNIEvent.pushLocalFrame _ true => true
  | _ => false

-- A PopLocalFrame event.
def isPop : JNIEvent → Bool
  | JNIEvent.popLocalFrame => true
  | _ => false

-- Number of successful frame pushes in a trace.
def pushOkCount (t : List JNIEvent) : Nat := t.countP isPushOk

-- Number of frame pops in a trace.
def popCount (t : List JNIEvent) : Nat := t.countP isPop

-- ============================================================
-- Claim theorems
-- ============================================================

/-- C1: every typed trampoline in the registry (objc_bridge.c sections
1-3) passes the receiver, the selector and each argument unchanged, in
left-to-right order per register file, to a single objc_msgSend
invocation, performs no other host interaction, and returns the
primitive result read back at the declared return type unchanged; this
makes it observationally equal to a direct, natively-typed call of the
same shape against the same dispatch oracle. Each conjunct exhibits the
exact register-file contents of the one emitted dispatch call. -/
theorem objc_trampolines_pass_through :
    (∀ (h : Host) (s l : Int),
      objc_send h s l =
        ([ObjCEvent.msgSend ⟨s, l, [], []⟩], (h.msgSend ⟨s, l, [], []⟩).x0)) ∧
    (∀ (h : Host) (s l a1 : Int),
      objc_send_id h s l a1 =
        ([ObjCEvent.msgSend ⟨s, l, [CVal.ptr a1], []⟩],
         (h.msgSend ⟨s, l, [CVal.ptr a1], []⟩).x0)) ∧
    (∀ (h : Host) (s l a1 a2 : Int),
      objc_send_id_id h s l a1 a2 =
        ([ObjCEvent.msgSend ⟨s, l, [CVal.ptr a1, CVal.ptr a2], []⟩],
         (h.msgSend ⟨s, l, [CVal.ptr a1, CVal.ptr a2], []⟩).x0)) ∧
    (∀ (h : Host) (s l a1 a2 a3 : Int),
      objc_send_id_id_id h s l a1 a2 a3 =
        ([ObjCEvent.msgSend ⟨s, l, [CVal.ptr a1, CVal.ptr a2, CVal.ptr a3], []⟩],
         (h.msgSend ⟨s, l, [CVal.ptr a1, CVal.ptr a2, CVal.ptr a3], []⟩).x0)) ∧
    (∀ (h : Host) (s l a1 : Int),
      objc_send_bool h s l a1 = [ObjCEvent.msgSend ⟨s, l, [CVal.int a1], []⟩]) ∧
    (∀ (h : Host) (s l a1 : Int),
      objc_send_long h s l a1 =
        ([ObjCEvent.msgSend ⟨s, l, [CVal.long a1], []⟩],
         (h.msgSend ⟨s, l, [CVal.long a1], []⟩).x0)) ∧
    (∀ (h : Host) (s l : Int) (a1 : Nat),
      objc_send_ulong h s l a1 =
        ([ObjCEvent.msgSend ⟨s, l, [CVal.ulong a1], []⟩],
         (h.msgSend ⟨s, l, [CVal.ulong a1], []⟩).x0)) ∧
    (∀ (h : Host) (s l a1 : Int),
      objc_send_int h s l a1 =
        ([ObjCEvent.msgSend ⟨s, l, [CVal.int a1], []⟩],
         (h.msgSend ⟨s, l, [CVal.int a1], []⟩).x0)) ∧
    (∀ (h : Host) (s l a1 : Int),
      objc_send_void_id h s l a1 = [ObjCEvent.msgSend ⟨s, l, [CVal.ptr a1], []⟩]) ∧
    (∀ (h : Host) (s l a1 : Int),
      objc_send_sel h s l a1 = [ObjCEvent.msgSend ⟨s, l, [CVal.sel a1], []⟩]) ∧
    (∀ (h : Host) (s l a1 a2 : Int),
      objc_send_id_sel h s l a1 a2 =
        [ObjCEvent.msgSend ⟨s, l, [CVal.ptr a1, CVal.sel a2], []⟩]) ∧
    (∀ (h : Host) (s l a1 a2 : Int) (a3 : Nat),
      objc_send_id_sel_ulong h s l a1 a2 a3 =
        [ObjCEvent.msgSend ⟨s, l, [CVal.ptr a1, CVal.sel a2, CVal.ulong a3], []⟩]) ∧
    (∀ (h : Host) (s l a1 a2 : Int),
      objc_send_id_long h s l a1 a2 =
        ([ObjCEvent.msgSend ⟨s, l, [CVal.ptr a1, CVal.long a2], []⟩],
         (h.msgSend ⟨s, l, [CVal.ptr a1, CVal.long a2], []⟩).x0)) ∧
    (∀ (h : Host) (s l : Int) (d : Rat),
      objc_send_1d h s l d = [ObjCEvent.msgSend ⟨s, l, [], [d]⟩]) ∧
    (∀ (h : Host) (s l : Int) (d : Rat),
      objc_send_1d_ret_id h s l d =
        ([ObjCEvent.msgSend ⟨s, l, [], [d]⟩], (h.msgSend ⟨s, l, [], [d]⟩).x0)) ∧
    (∀ (h : Host) (s l : Int) (d0 d1 : Rat),
      objc_send_2d_ret_id h s l d0 d1 =
        ([ObjCEvent.msgSend ⟨s, l, [], [d0, d1]⟩],
         (h.msgSend ⟨s, l, [], [d0, d1]⟩).x0)) ∧
    (∀ (h : Host) (s l : Int) (d0 d1 d2 : Rat),
      objc_send_3d_ret_id h s l d0 d1 d2 =
        ([ObjCEvent.msgSend ⟨s, l, [], [d0, d1, d2]⟩],
         (h.msgSend ⟨s, l, [], [d0, d1, d2]⟩).x0)) ∧
    (∀ (h : Host) (s l : Int) (d0 d1 d2 d3 : Rat),
      objc_send_4d_ret_id h s l d0 d1 d2 d3 =
        ([ObjCEvent.msgSend ⟨s, l, [], [d0, d1, d2, d3]⟩],
         (h.msgSend ⟨s, l, [], [d0, d1, d2, d3]⟩).x0)) ∧
    (∀ (h : Host) (s l : Int) (d0 d1 : Rat),
      objc_send_2d h s l d0 d1 = [ObjCEvent.msgSend ⟨s, l, [], [d0, d1]⟩]) ∧
    (∀ (h : Host) (s l a1 : Int) (d0 : Rat),
      objc_send_id_1d_ret_id h s l a1 d0 =
        ([ObjCEvent.msgSend ⟨s, l, [CVal.ptr a1], [d0]⟩],
         (h.msgSend ⟨s, l, [CVal.ptr a1], [d0]⟩).x0)) ∧
    (∀ (h : Host) (s l : Int) (r : CGRect),
      objc_send_rect h s l r =
        ([ObjCEvent.msgSend
            ⟨s, l, [], [r.origin.x, r.origin.y, r.size.width, r.size.height]⟩],
         (h.msgSend
            ⟨s, l, [], [r.origin.x, r.origin.y, r.size.width, r.size.height]⟩).x0)) ∧
    (∀ (h : Host) (s l : Int) (r : CGRect),
      objc_send_rect_void h s l r =
        [ObjCEvent.msgSend
           ⟨s, l, [], [r.origin.x, r.origin.y, r.size.width, r.size.height]⟩]) ∧
    (∀ (h : Host) (s l : Int) (r : CGRect) (a b : Nat) (c : Int),
      objc_send_rect_ulong_ulong_bool h s l r a b c =
        ([ObjCEvent.msgSend
            ⟨s, l, [CVal.ulong a, CVal.ulong b, CVal.int c],
             [r.origin.x, r.origin.y, r.size.width, r.size.height]⟩],
         (h.msgSend
            ⟨s, l, [CVal.ulong a, CVal.ulong b, CVal.int c],
             [r.origin.x, r.origin.y, r.size.width, r.size.height]⟩).x0)) ∧
    (∀ (h : Host) (s l : Int) (p : CGPoint),
      objc_send_point h s l p =
        ([ObjCEvent.msgSend ⟨s, l, [], [p.x, p.y]⟩],
         (h.msgSend ⟨s, l, [], [p.x, p.y]⟩).x0)) ∧
    (∀ (h : Host) (s l : Int) (p : CGPoint),
      objc_send_point_void h s l p = [ObjCEvent.msgSend ⟨s, l, [], [p.x, p.y]⟩]) ∧
    (∀ (h : Host) (s l : Int) (sz : CGSize),
      objc_send_size_void h s l sz =
        [ObjCEvent.msgSend ⟨s, l, [], [sz.width, sz.height]⟩]) ∧
    (∀ (h : Host) (s l : Int),
      objc_send_ret_rect h s l =
        ([ObjCEvent.msgSend ⟨s, l, [], []⟩],
         ⟨⟨(h.msgSend ⟨s, l, [], []⟩).d0, (h.msgSend ⟨s, l, [], []⟩).d1⟩,
          ⟨(h.msgSend ⟨s, l, [], []⟩).d2, (h.msgSend ⟨s, l, [], []⟩).d3⟩⟩)) ∧
    (∀ (h : Host) (s l : Int),
      objc_send_ret_point h s l =
        ([ObjCEvent.msgSend ⟨s, l, [], []⟩],
         ⟨(h.msgSend ⟨s, l, [], []⟩).d0, (h.msgSend ⟨s, l, [], []⟩).d1⟩)) ∧
    (∀ (h : Host) (s l : Int),
      objc_send_ret_size h s l =
        ([ObjCEvent.msgSend ⟨s, l, [], []⟩],
         ⟨(h.msgSend ⟨s, l, [], []⟩).d0, (h.msgSend ⟨s, l, [], []⟩).d1⟩)) ∧
    (∀ (h : Host) (s l : Int),
      objc_send_ret_double h s l =
        ([ObjCEvent.msgSend ⟨s, l, [], []⟩], (h.msgSend ⟨s, l, [], []⟩).d0)) ∧
    (∀ (h : Host) (s l : Int),
      objc_send_ret_long h s l =
        ([ObjCEvent.msgSend ⟨s, l, [], []⟩], (h.msgSend ⟨s, l, [], []⟩).x0)) ∧
    (∀ (h : Host) (s l : Int),
      objc_send_ret_bool h s l =
        ([ObjCEvent.msgSend ⟨s, l, [], []⟩], (h.msgSend ⟨s, l, [], []⟩).x0)) := by
  refine ⟨?_, ?_, ?_, ?_, ?_, ?_, ?_, ?_, ?_, ?_, ?_, ?_, ?_, ?_, ?_, ?_,
          ?_, ?_, ?_, ?_, ?_, ?_, ?_, ?_, ?_, ?_, ?_, ?_, ?_, ?_, ?_, ?_⟩ <;>
    intros <;> rfl

/-- C2: the HFA-returning trampolines declare as many floating-point
fields as the aggregate, so every field is independently observable: if
the dispatched target leaves (1, 2, 3, 4) in d0-d3, the CGRect returned
by objc_send_ret_rect has exactly those four fields; if it leaves
(10.5, -3.25) in d0-d1, the CGPoint returned by objc_send_ret_point has
exactly those two fields. -/
theorem hfa_return_fields_observable :
    (∀ (h : Host) (s l : Int),
      (h.msgSend ⟨s, l, [], []⟩).d0 = 1 →
      (h.msgSend ⟨s, l, [], []⟩).d1 = 2 →
      (h.msgSend ⟨s, l, [], []⟩).d2 = 3 →
      (h.msgSend ⟨s, l, [], []⟩).d3 = 4 →
      (objc_send_ret_rect h s l).2.origin.x = 1 ∧
      (objc_send_ret_rect h s l).2.origin.y = 2 ∧
      (objc_send_ret_rect h s l).2.size.width = 3 ∧
      (objc_send_ret_rect h s l).2.size.height = 4) ∧
    (∀ (h : Host) (s l : Int),
      (h.msgSend ⟨s, l, [], []⟩).d0 = 10.5 →
      (h.msgSend ⟨s, l, [], []⟩).d1 = -3.25 →
      (objc_send_ret_point h s l).2.x = 10.5 ∧
      (objc_send_ret_point h s l).2.y = -3.25) :=
  ⟨fun _ _ _ h0 h1 h2 h3 => ⟨h0, h1, h2, h3⟩, fun _ _ _ h0 h1 => ⟨h0, h1⟩⟩

/-- C2 witness: concrete hosts whose targets return (1, 2, 3, 4) and
(10.5, -3.25), with the theorem applied at receiver 0 and selector 0. -/
theorem hfa_return_fields_observable_witness :
    ((rectHost.msgSend ⟨0, 0, [], []⟩).d0 = 1 ∧
     (rectHost.msgSend ⟨0, 0, [], []⟩).d1 = 2 ∧
     (rectHost.msgSend ⟨0, 0, [], []⟩).d2 = 3 ∧
     (rectHost.msgSend ⟨0, 0, [], []⟩).d3 = 4 ∧
     ((objc_send_ret_rect rectHost 0 0).2.origin.x = 1 ∧
      (objc_send_ret_rect rectHost 0 0).2.origin.y = 2 ∧
      (objc_send_ret_rect rectHost 0 0).2.size.width = 3 ∧
      (objc_send_ret_rect rectHost 0 0).2.size.height = 4)) ∧
    ((pointHost.msgSend ⟨0, 0, [], []⟩).d0 = 10.5 ∧
     (pointHost.msgSend ⟨0, 0, [], []⟩).d1 = -3.25 ∧
     ((objc_send_ret_point pointHost 0 0).2.x = 10.5 ∧
      (objc_send_ret_point pointHost 0 0).2.y = -3.25)) :=
  ⟨⟨rfl, rfl, rfl, rfl,
    hfa_return_fields_observable.1 rectHost 0 0 rfl rfl rfl rfl⟩,
   ⟨rfl, rfl,
    hfa_return_fields_observable.2 pointHost 0 0 rfl rfl⟩⟩

/-- C3: in the shape mixing one pointer-class and one floating-point
argument (objc_send_id_1d_ret_id), the two register files are allocated
independently: the pointer is the sole integer-file argument (slot 0)
and the double is the sole floating-point-file argument (slot 0, not
slot 1), both arriving unchanged at the single dispatch call. -/
theorem mixed_register_files_independent :
    ∀ (h : Host) (s l p : Int) (d : Rat),
      marshal [CVal.ptr p, CVal.dbl d] = ([CVal.ptr p], [d]) ∧
      objc_send_id_1d_ret_id h s l p d =
        ([ObjCEvent.msgSend ⟨s, l, [CVal.ptr p], [d]⟩],
         (h.msgSend ⟨s, l, [CVal.ptr p], [d]⟩).x0) :=
  fun _ _ _ _ _ => ⟨rfl, rfl⟩

/-- C4: crystal_asyncify_switch reads the asyncify state once; when the
state is 2 (rewinding) it performs exactly one asyncify_stop_rewind and
never starts an unwind, and for every other state it performs exactly
one asyncify_start_unwind with the given data pointer and never stops a
rewind. -/
theorem asyncify_switch_state_dispatch :
    ∀ (s d : Int),
      (s = 2 →
        crystal_asyncify_switch s d =
          [AsyncifyCall.getState, AsyncifyCall.stopRewind] ∧
        ∀ d2, AsyncifyCall.startUnwind d2 ∉ crystal_asyncify_switch s d) ∧
      (s ≠ 2 →
        crystal_asyncify_switch s d =
          [AsyncifyCall.getState, AsyncifyCall.startUnwind d] ∧
        AsyncifyCall.stopRewind ∉ crystal_asyncify_switch s d) := by
  intro s d
  constructor
  · intro hs
    subst hs
    refine ⟨rfl, fun d2 hm => ?_⟩
    have e2 : crystal_asyncify_switch 2 d =
        [AsyncifyCall.getState, AsyncifyCall.stopRewind] := rfl
    rw [e2] at hm
    cases hm with
    | tail _ h2 =>
      cases h2 with
      | tail _ h3 => cases h3
  · intro hs
    have e : crystal_asyncify_switch s d =
        [AsyncifyCall.getState, AsyncifyCall.startUnwind d] := by
      unfold crystal_asyncify_switch
      rw [if_neg hs]
    refine ⟨e, fun hm => ?_⟩
    rw [e] at hm
    cases hm with
    | tail _ h2 =>
      cases h2 with
      | tail _ h3 => cases h3

/-- C4 witness: the theorem applied at state 2 (rewinding) and state 0
(normal) with data pointer 7. -/
theorem asyncify_switch_state_dispatch_witness :
    ((2 : Int) = 2 ∧
      crystal_asyncify_switch 2 7 =
        [AsyncifyCall.getState, AsyncifyCall.stopRewind]) ∧
    ((0 : Int) ≠ 2 ∧
      crystal_asyncify_switch 0 7 =
        [AsyncifyCall.getState, AsyncifyCall.startUnwind 7]) :=
  ⟨⟨rfl, ((asyncify_switch_state_dispatch 2 7).1 rfl).1⟩,
   ⟨by decide, ((asyncify_switch_state_dispatch 0 7).2 (by decide)).1⟩⟩

-- Helper: a second ensure_selectors run leaves the cache fixed (either
-- the guard fires, or the refill recomputes the same host tokens).
theorem ensure_selectors_cache_idem (h : Host) (c : SelCache) :
    ensure_selectors_cache h (ensure_selectors_cache h c) =
      ensure_selectors_cache h c := by
  by_cases h1 : c.sel_alloc ≠ 0
  · have e1 : ensure_selectors_cache h c = c := by
      unfold ensure_selectors_cache ensure_selectors
      rw [if_pos h1]
    rw [e1]
    exact e1
  · have e1 : ensure_selectors_cache h c = fillCache h := by
      unfold ensure_selectors_cache ensure_selectors
      rw [if_neg h1]
    rw [e1]
    by_cases h2 : (fillCache h).sel_alloc ≠ 0
    · unfold ensure_selectors_cache ensure_selectors
      rw [if_pos h2]
    · unfold ensure_selectors_cache ensure_selectors
      rw [if_neg h2]

-- Helper: any number of further runs is the same as one run.
theorem ensure_selectors_cache_iterate (h : Host) (n : Nat) (c : SelCache) :
    (ensure_selectors_cache h)^[n + 1] c = ensure_selectors_cache h c := by
  induction n with
  | zero => rfl
  | succ m ih =>
      rw [Function.iterate_succ_apply', ih, ensure_selectors_cache_idem]

/-- C5: selector resolution is idempotent: the selector cache after any
positive number of ensure_selectors runs equals the cache after one run
(so a subsequent call leaves every cached selector variable unchanged),
and from the all-NULL initial state the stable value is exactly the
host-resolved token for each cached name. -/
theorem selector_resolution_idempotent :
    ∀ (h : Host) (c : SelCache) (n : Nat),
      (ensure_selectors_cache h)^[n + 1] c = ensure_selectors_cache h c ∧
      (ensure_selectors_cache h)^[n + 1] emptyCache = fillCache h :=
  fun h c n =>
    ⟨ensure_selectors_cache_iterate h n c,
     (ensure_selectors_cache_iterate h n emptyCache).trans rfl⟩

/-- C6 counterexample: with a host resolving every name to token 1 and
the all-NULL initial cache, the first nsmutablearray_create_from call
resolves mutableCopy against the host, and a second call performs the
sel_registerName host lookup for mutableCopy again - its lookup trace
is exactly that repeated lookup - refuting the claim that after the
first resolution of a name every later operation using it performs no
further host lookup. -/
theorem selector_memoization_counterexample :
    lookupNames (nsmutablearray_create_from hostOne emptyCache 0 0).2.1 =
      cachedSelectorNames ++ ["mutableCopy"] ∧
    lookupNames
      (nsmutablearray_create_from hostOne
        (nsmutablearray_create_from hostOne emptyCache 0 0).1 0 0).2.1 =
      ["mutableCopy"] :=
  ⟨rfl, rfl⟩

/-- C6 amended: resolution is memoized only for the 21 names in the
selector cache: once the cache is populated (sel_alloc non-null), a
further ensure_selectors performs no host lookup and each
nsmutablearray_create_from call performs exactly its one uncached
lookup (mutableCopy); names outside the cache are resolved against the
host on every call - in particular nscolor_rgba resolves
colorWithRed:green:blue:alpha: on each invocation - and from the
all-NULL state ensure_selectors resolves exactly the 21 cached names. -/
theorem selector_cache_memoization_amended :
    ∀ (h : Host) (st : SelCache) (p : Int) (n : Nat) (r g b a : Rat),
      st.sel_alloc ≠ 0 →
      ensure_selectors h st = (st, []) ∧
      lookupNames (nsmutablearray_create_from h st p n).2.1 = ["mutableCopy"] ∧
      lookupNames (nscolor_rgba h r g b a).1 =
        ["colorWithRed:green:blue:alpha:"] ∧
      lookupNames (ensure_selectors h emptyCache).2 = cachedSelectorNames := by
  intro h st p n r g b a hinit
  have h1 : ensure_selectors h st = (st, []) := by
    unfold ensure_selectors
    rw [if_pos hinit]
  refine ⟨h1, ?_, rfl, rfl⟩
  unfold nsmutablearray_create_from
  rw [h1]
  rfl

/-- C6 amended witness: the amended theorem applied to the token-1 host
and a fully populated cache, at concrete arguments. -/
theorem selector_cache_memoization_amended_witness :
    fullCacheOne.sel_alloc ≠ 0 ∧
    (ensure_selectors hostOne fullCacheOne = (fullCacheOne, []) ∧
     lookupNames (nsmutablearray_create_from hostOne fullCacheOne 0 0).2.1 =
       ["mutableCopy"] ∧
     lookupNames (nscolor_rgba hostOne 0 0 0 0).1 =
       ["colorWithRed:green:blue:alpha:"] ∧
     lookupNames (ensure_selectors hostOne emptyCache).2 =
       cachedSelectorNames) :=
  ⟨by decide,
   selector_cache_memoization_amended hostOne fullCacheOne 0 0 0 0 0 0
     (by decide)⟩

/-- C9: the backward-compatibility aliases are observationally equal to
the functions they were renamed to: objc_send_double coincides with
objc_send_1d and objc_send_double_ret_id with objc_send_1d_ret_id on
every receiver, selector and double argument, trace and result
included. -/
theorem compat_aliases_delegate :
    ∀ (h : Host) (s l : Int) (d : Rat),
      objc_send_double h s l d = objc_send_1d h s l d ∧
      objc_send_double_ret_id h s l d = objc_send_1d_ret_id h s l d :=
  fun _ _ _ _ => ⟨rfl, rfl⟩

/-- C10: on every LLVM version branch, LLVMExtSetWasmExceptionHandling
leaves both WasmEnableEH and WasmUseLegacyEH set to true (the legacy
try/catch format, never try_table/exnref), touches the exception-model
fields exactly on the pre-22 branch, and changes nothing else on the
target machine. -/
theorem wasm_eh_sets_legacy_flags :
    ∀ (vmajor vminor : Nat) (tm : TargetMachineState),
      (LLVMExtSetWasmExceptionHandling vmajor vminor tm).wasmEnableEH = true ∧
      (LLVMExtSetWasmExceptionHandling vmajor vminor tm).wasmUseLegacyEH = true ∧
      (LLVMExtSetWasmExceptionHandling vmajor vminor tm).otherState =
        tm.otherState ∧
      (LLVMExtSetWasmExceptionHandling vmajor vminor tm).optionsExceptionModel =
        (if llvmVersionGE vmajor vminor 22 0 then tm.optionsExceptionModel
         else ExcKind.wasm) ∧
      (LLVMExtSetWasmExceptionHandling vmajor vminor tm).mcAsmInfoExceptionsType =
        (if llvmVersionGE vmajor vminor 22 0 then tm.mcAsmInfoExceptionsType
         else ExcKind.wasm) := by
  intro vmajor vminor tm
  unfold LLVMExtSetWasmExceptionHandling
  cases hv : llvmVersionGE vmajor vminor 22 0 <;> exact ⟨rfl, rfl, rfl, rfl, rfl⟩

-- Helper: replicated non-frame events contribute no frame pushes or pops.
theorem countP_replicate_eq_zero (p : JNIEvent → Bool) (e : JNIEvent)
    (he : p e = false) (n : Nat) : (List.replicate n e).countP p = 0 := by
  induction n with
  | zero => rfl
  | succ m ih =>
      rw [List.replicate_succ, List.countP_cons, he, ih]
      rfl

-- Helper: the hashmap put loop contains no frame pushes or pops.
theorem hashmapPutEvents_no_frames (keys vals : List String) (n : Nat) :
    (hashmapPutEvents keys vals n).countP isPushOk = 0 ∧
    (hashmapPutEvents keys vals n).countP isPop = 0 := by
  induction n with
  | zero => exact ⟨rfl, rfl⟩
  | succ m ih =>
      constructor
      · rw [hashmapPutEvents, List.countP_append, ih.1]
        rfl
      · rw [hashmapPutEvents, List.countP_append, ih.2]
        rfl

/-- C8: in each JNI batch-marshaling helper (jni_arraylist_create,
jni_viewgroup_add_views_batch, jni_hashmap_create_string_string), every
successful PushLocalFrame is matched by exactly one PopLocalFrame on
every exit path, including the error returns for a failed class lookup
or a failed object allocation, so the local-reference frame depth is
unchanged by the call regardless of the outcomes of the fallible JNI
operations. -/
theorem jni_local_frames_balanced :
    ∀ (o : JNIOutcomes) (count : Int) (keys vals : List String),
      pushOkCount (jni_arraylist_create o count).1 =
        popCount (jni_arraylist_create o count).1 ∧
      pushOkCount (jni_viewgroup_add_views_batch o count) =
        popCount (jni_viewgroup_add_views_batch o count) ∧
      pushOkCount
          (jni_hashmap_create_string_string o keys vals count).1 =
        popCount (jni_hashmap_create_string_string o keys vals count).1 := by
  intro o count keys vals
  refine ⟨?_, ?_, ?_⟩
  · unfold jni_arraylist_create pushOkCount popCount
    split
    · rfl
    · split
      · rfl
      · split
        · rfl
        · simp only [List.countP_append,
              countP_replicate_eq_zero isPushOk JNIEvent.callBooleanMethod rfl,
              countP_replicate_eq_zero isPop JNIEvent.callBooleanMethod rfl]
          rfl
  · unfold jni_viewgroup_add_views_batch pushOkCount popCount
    split
    · rfl
    · split
      · rfl
      · simp only [List.countP_append,
            countP_replicate_eq_zero isPushOk JNIEvent.callVoidMethod rfl,
            countP_replicate_eq_zero isPop JNIEvent.callVoidMethod rfl]
        rfl
  · unfold jni_hashmap_create_string_string pushOkCount popCount
    split
    · rfl
    · split
      · rfl
      · simp only [List.countP_append,
            (hashmapPutEvents_no_frames keys vals count.toNat).1,
            (hashmapPutEvents_no_frames keys vals count.toNat).2]
        rfl
